import Mathlib

/-!
Verification development for the BOND rotary pill-dispenser firmware
(`1.Pill_Dispenser_ESP32`).  The controller logic of `DispenserController.h`,
the pulse-width validation of `HardwareController.h` and the command parsing
of `BLEManager.h` are embedded shallowly:

* C++ `int`/`long` values become `Int`; the firmware's `float` quantities
  (gear ratio, `totalStepsPerRevolution`, compartment angles) become `ℚ`,
  with C truncation-toward-zero casts made explicit (`truncQ`).
* The mutable `DispenserController` object state becomes `DState`, threaded
  explicitly; every hardware command issued is recorded in a `List HwEvent`
  trace.
* Real-time behaviour (busy-wait loops on `millis()`, `delay` calls) is
  abstracted: the outcome of each homing seek loop and the sequence of IR
  sensor samples observed in a detection window are inputs supplied by an
  environment (`HomingEnv`, `DispenserEnv`).  Matching the source, pulses
  issued inside the homing seek loop do not pass through
  `updatePositionAfterMovement` and hence do not alter the tracked position.
-/

/-- Truncation toward zero of a rational, the semantics of C's `(long)` cast
applied to a non-NaN floating value. -/
def truncQ (q : ℚ) : Int :=
  if 0 ≤ q then ⌊q⌋ else -⌊-q⌋

/-- Arduino's `constrain(amt, low, high)` helper, which evaluates to
`(amt < low) ? low : ((amt > high) ? high : amt)`. -/
def constrain (x lo hi : Int) : Int :=
  if x < lo then lo else if x > hi then hi else x

/-- Embedding of the `SystemConfiguration` struct of `ConfigurationSettings.h`
(restricted to the fields the embedded operations read). -/
structure SystemConfiguration where
  stepperStepsPerRevolution : Int
  stepperMicrostepping : Int
  stepperGearRatio : ℚ
  stepperStepPulseWidthMicroseconds : Int
  stepperMinStepPulseWidthMicroseconds : Int
  stepperMaxStepPulseWidthMicroseconds : Int
  maximumDispenseAttempts : Int
  numberOfCompartmentsInDispenser : Int
  containerPositionsInDegrees : List ℚ
  homingRetryAttempts : Int
  homingDelayDecrementPerRetry : Int
  homingTimeoutIncrementPerRetry : Int
  autoHomeAfterDispense : Bool

/-- The default values of `ConfigurationSettings.h`. -/
def defaultConfig : SystemConfiguration where
  stepperStepsPerRevolution := 200
  stepperMicrostepping := 1
  stepperGearRatio := 1
  stepperStepPulseWidthMicroseconds := 15000
  stepperMinStepPulseWidthMicroseconds := 10000
  stepperMaxStepPulseWidthMicroseconds := 50000
  maximumDispenseAttempts := 3
  numberOfCompartmentsInDispenser := 5
  containerPositionsInDegrees := [0, 72, 144, 216, 288]
  homingRetryAttempts := 1
  homingDelayDecrementPerRetry := 0
  homingTimeoutIncrementPerRetry := 0
  autoHomeAfterDispense := true

/-- Mutable state of the `DispenserController` object. -/
structure DState where
  currentCompartmentNumber : Int
  isSystemHomedAndReady : Bool
  dispensedCountForEachCompartment : List Int
  currentPositionSteps : Int
deriving DecidableEq

/-- Total steps per revolution, `stepperStepsPerRevolution *
stepperMicrostepping * stepperGearRatio`, computed in `float` by the firmware, here exactly in `ℚ`. -/
def totalStepsPerRevolution (cfg : SystemConfiguration) : ℚ :=
  (cfg.stepperStepsPerRevolution : ℚ) * (cfg.stepperMicrostepping : ℚ) *
    cfg.stepperGearRatio

/-- Embedding of `HardwareController::calculateStepsForAngle` /
`calculateCompartmentStepPositions` conversion of one angle:
`(long)((angleInDegrees / 360.0) * totalStepsPerRevolution)`. -/
def calculateStepsForAngle (cfg : SystemConfiguration) (angleInDegrees : ℚ) : Int :=
  truncQ (angleInDegrees / 360 * totalStepsPerRevolution cfg)

/-- Embedding of `DispenserController::calculateCompartmentStepPositions`: the absolute
step position of each configured compartment angle. -/
def compartmentStepPositions (cfg : SystemConfiguration) : List Int :=
  cfg.containerPositionsInDegrees.map (calculateStepsForAngle cfg)

/-- Shortest-path wraparound adjustment of
`moveRotaryDispenserToCompartmentNumber` (`DispenserController.h` lines
326-340): `stepsToMove = target - current`, and if
`abs(stepsToMove) > totalStepsPerRevolution / 2` a full (truncated)
revolution is subtracted or added once. -/
def wrapAdjustedDelta (revSteps : ℚ) (currentStepPosition targetStepPosition : Int) : Int :=
  let stepsToMove := targetStepPosition - currentStepPosition
  if ((|stepsToMove| : Int) : ℚ) > revSteps / 2 then
    if stepsToMove > 0 then stepsToMove - truncQ revSteps
    else stepsToMove + truncQ revSteps
  else
    stepsToMove

/-- Per-attempt step delay of `performHomingWithRetryAndEscalation`
(`DispenserController.h` lines 141-145): base delay minus an escalating
decrement, passed through Arduino `constrain` with the minimum safe delay
as lower bound and the base delay as upper bound. -/
def homingAttemptDelay (cfg : SystemConfiguration) (attempt : Int) : Int :=
  let baseDelay := cfg.stepperStepPulseWidthMicroseconds * 2
  let attemptDelay := baseDelay - (attempt - 1) * cfg.homingDelayDecrementPerRetry
  let minDelay := cfg.stepperMinStepPulseWidthMicroseconds * 2
  constrain attemptDelay minDelay baseDelay

/-- Embedding of `HardwareController::validateStepPulseWidth`: clamp a requested pulse
width into the configured safe band. -/
def validateStepPulseWidth (cfg : SystemConfiguration) (pulseWidthMicroseconds : Int) : Int :=
  constrain pulseWidthMicroseconds cfg.stepperMinStepPulseWidthMicroseconds
    cfg.stepperMaxStepPulseWidthMicroseconds

/-- Rising-edge pill counting of the detection window inside
`attemptToDispenseAndCountPills`: `pillCount` is incremented whenever
`!lastSensorState && currentSensorState`, then `lastSensorState` follows. -/
def countPillEdges (lastSensorState : Bool) : List Bool → Nat
  | [] => 0
  | currentSensorState :: rest =>
      (if !lastSensorState && currentSensorState then 1 else 0) +
        countPillEdges currentSensorState rest

/-- Pill count of one detection window whose sensor reads are `samples`:
the first read initialises `lastSensorState` (taken just before the polling
loop), the remaining reads are the loop iterations. -/
def attemptPillCount (samples : List Bool) : Nat :=
  match samples with
  | [] => 0
  | first :: rest => countPillEdges first rest

/-- Rising-edge count as the specification words it: the number of adjacent
sample pairs whose previous sample is inactive and whose current sample is
active. -/
def risingEdgeCountSpec (samples : List Bool) : Nat :=
  (samples.zip samples.tail).countP fun p => !p.1 && p.2

/-- Hardware commands issued by the controller; a run of an embedded
operation produces the list of commands in issue order. -/
inductive HwEvent where
  | servoRest
  | stepperForward (steps stepDelay : Int)
  | stepperBackward (steps stepDelay : Int)
  | motorEnable
  | seekRotate (attempt stepDelay : Int)
  | motorStop
  | encoderReset
  | electromagnetOn
  | servoToMax
  | servoReturn
  | electromagnetOff
deriving DecidableEq

/-- Embedding of `HardwareController::moveStepperForwardBySteps`: returns `0` and issues
nothing when `steps <= 0`, otherwise pulses `steps` times and returns
`steps`. -/
def moveStepperForwardBySteps (steps stepDelay : Int) : Int × List HwEvent :=
  if steps ≤ 0 then (0, [])
  else (steps, [HwEvent.stepperForward steps stepDelay])

/-- Embedding of `HardwareController::moveStepperBackwardBySteps`: returns `0` and issues
nothing when `steps <= 0`, otherwise pulses `steps` times backward and
returns `-steps`. -/
def moveStepperBackwardBySteps (steps stepDelay : Int) : Int × List HwEvent :=
  if steps ≤ 0 then (0, [])
  else (-steps, [HwEvent.stepperBackward steps stepDelay])

/-- Embedding of `DispenserController::resetPositionToHome`. -/
def resetPositionToHome (s : DState) : DState :=
  { s with currentPositionSteps := 0, currentCompartmentNumber := 0 }

/-- Environment of one run of `performHomingWithRetryAndEscalation`.  The
sensor reads at the two guard points of each attempt are given per attempt
number; the timing-dependent seek loop (busy polling against `millis()`)
is abstracted by whether the home switch is active when the loop exits. -/
structure HomingEnv where
  switchAtShortCircuit : Int → Bool
  switchAtAttemptStart : Int → Bool
  seekFound : Int → Bool

/-- Attempt loop of `performHomingWithRetryAndEscalation`
(`DispenserController.h` lines 141-208).  `fuel` is the number of loop
iterations still permitted by `attempt <= maxAttempts`; `attempt` is the
1-based attempt counter.  Running out of fuel is the loop exit, after which
the function clears `isSystemHomedAndReady` and returns `false`. -/
def performHomingAttempts (cfg : SystemConfiguration) (env : HomingEnv) :
    Nat → Int → DState → List HwEvent → Bool × DState × List HwEvent
  | 0, _, s, tr =>
      (false, { s with isSystemHomedAndReady := false }, tr)
  | fuelRemaining + 1, attempt, s, tr =>
      let attemptDelay := homingAttemptDelay cfg attempt
      if s.isSystemHomedAndReady = true ∧ env.switchAtShortCircuit attempt = true then
        (true, resetPositionToHome s, tr ++ [HwEvent.encoderReset])
      else
        let afterNudge :=
          if env.switchAtAttemptStart attempt = true then
            let mv := moveStepperBackwardBySteps (calculateStepsForAngle cfg 10) attemptDelay
            ({ s with currentPositionSteps := s.currentPositionSteps + mv.1 }, tr ++ mv.2)
          else (s, tr)
        let s1 := afterNudge.1
        let tr1 := afterNudge.2 ++
          [HwEvent.motorEnable, HwEvent.seekRotate attempt attemptDelay, HwEvent.motorStop]
        if env.seekFound attempt = true then
          (true, { resetPositionToHome s1 with isSystemHomedAndReady := true },
           tr1 ++ [HwEvent.encoderReset])
        else
          let afterFwd :=
            if attempt < cfg.homingRetryAttempts then
              let mv := moveStepperForwardBySteps (calculateStepsForAngle cfg 5) attemptDelay
              ({ s1 with currentPositionSteps := s1.currentPositionSteps + mv.1 }, tr1 ++ mv.2)
            else (s1, tr1)
          performHomingAttempts cfg env fuelRemaining (attempt + 1) afterFwd.1 afterFwd.2

/-- Embedding of `DispenserController::performHomingWithRetryAndEscalation`: the servo is
parked first, then up to `homingRetryAttempts` escalating attempts run. -/
def performHomingWithRetryAndEscalation (cfg : SystemConfiguration) (env : HomingEnv)
    (s : DState) : Bool × DState × List HwEvent :=
  performHomingAttempts cfg env cfg.homingRetryAttempts.toNat 1 s [HwEvent.servoRest]

/-- Environment of a whole controller run: homing environments are consumed
one per homing run, IR detection windows one per single-pill dispense
attempt. -/
structure DispenserEnv where
  homingEnv : Nat → HomingEnv
  irSamples : Nat → List Bool

/-- Cursors into a `DispenserEnv`: how many homing runs and how many
single-pill dispense attempts have been consumed so far. -/
structure ExecCtx where
  homingRuns : Nat
  dispenseAttempts : Nat
deriving DecidableEq

/-- Embedding of `DispenserController::ensureSystemIsHomed`: run a homing cycle
(discarding its result) only when the system is not homed. -/
def ensureSystemIsHomed (cfg : SystemConfiguration) (env : DispenserEnv)
    (ctx : ExecCtx) (s : DState) : DState × ExecCtx × List HwEvent :=
  if s.isSystemHomedAndReady = true then (s, ctx, [])
  else
    let r := performHomingWithRetryAndEscalation cfg (env.homingEnv ctx.homingRuns) s
    (r.2.1, { ctx with homingRuns := ctx.homingRuns + 1 }, r.2.2)

/-- Body of `moveRotaryDispenserToCompartmentNumber` after
`ensureSystemIsHomed` (`DispenserController.h` lines 316-361). -/
def moveRotaryCore (cfg : SystemConfiguration) (s : DState)
    (targetCompartmentNumber : Int) : Bool × DState × List HwEvent :=
  if targetCompartmentNumber < 1 ∨
      targetCompartmentNumber > cfg.numberOfCompartmentsInDispenser then
    (false, s, [])
  else if s.currentCompartmentNumber = targetCompartmentNumber then
    (true, s, [])
  else
    let targetStepPosition :=
      (compartmentStepPositions cfg).getD (targetCompartmentNumber - 1).toNat 0
    let stepsToMove :=
      wrapAdjustedDelta (totalStepsPerRevolution cfg) s.currentPositionSteps
        targetStepPosition
    if |stepsToMove| < 5 then
      (true, { s with currentCompartmentNumber := targetCompartmentNumber }, [])
    else
      let stepDelay := cfg.stepperStepPulseWidthMicroseconds * 2
      let mv :=
        if stepsToMove > 0 then moveStepperForwardBySteps stepsToMove stepDelay
        else moveStepperBackwardBySteps |stepsToMove| stepDelay
      (true,
       { s with currentPositionSteps := s.currentPositionSteps + mv.1,
                currentCompartmentNumber := targetCompartmentNumber },
       mv.2)

/-- Embedding of `DispenserController::moveRotaryDispenserToCompartmentNumber`. -/
def moveRotaryDispenserToCompartmentNumber (cfg : SystemConfiguration)
    (env : DispenserEnv) (ctx : ExecCtx) (s : DState)
    (targetCompartmentNumber : Int) : Bool × DState × ExecCtx × List HwEvent :=
  let h := ensureSystemIsHomed cfg env ctx s
  let r := moveRotaryCore cfg h.1 targetCompartmentNumber
  (r.1, r.2.1, h.2.1, h.2.2 ++ r.2.2)

/-- Retry loop of `attemptToDispenseAndCountPills`: each attempt activates
the electromagnet, sweeps the servo, counts rising edges over the sampled
detection window, parks the servo and releases the magnet; a positive count
returns immediately, otherwise up to `maximumDispenseAttempts` attempts run
and `0` is returned. -/
def dispenseAttemptLoop (env : DispenserEnv) :
    Nat → ExecCtx → Int × ExecCtx × List HwEvent
  | 0, ctx => (0, ctx, [])
  | remaining + 1, ctx =>
      let samples := env.irSamples ctx.dispenseAttempts
      let ctx1 := { ctx with dispenseAttempts := ctx.dispenseAttempts + 1 }
      let pillCount : Int := (attemptPillCount samples : Nat)
      let evs := [HwEvent.electromagnetOn, HwEvent.servoToMax, HwEvent.servoReturn,
                  HwEvent.electromagnetOff]
      if pillCount > 0 then (pillCount, ctx1, evs)
      else
        let r := dispenseAttemptLoop env remaining ctx1
        (r.1, r.2.1, evs ++ r.2.2)

/-- Embedding of `DispenserController::attemptToDispenseAndCountPills`. -/
def attemptToDispenseAndCountPills (cfg : SystemConfiguration) (env : DispenserEnv)
    (ctx : ExecCtx) : Int × ExecCtx × List HwEvent :=
  dispenseAttemptLoop env cfg.maximumDispenseAttempts.toNat ctx

/-- Statistics update of `dispensePillsFromCompartment` (lines 450-455): one
increment per detected pill, each guarded by the compartment range check;
equivalently the counter grows by `pillsDetected` when the compartment is in
range. -/
def bumpDispenseCounts (cfg : SystemConfiguration) (counts : List Int)
    (compartmentNumber pillsDetected : Int) : List Int :=
  if 1 ≤ compartmentNumber ∧ compartmentNumber ≤ cfg.numberOfCompartmentsInDispenser then
    counts.set (compartmentNumber - 1).toNat
      (counts.getD (compartmentNumber - 1).toNat 0 + pillsDetected)
  else counts

/-- Pill loop of `dispensePillsFromCompartment` (lines 443-466), running
`numberOfPillsToDispense` iterations and then the auto-home check. -/
def dispensePillsLoop (cfg : SystemConfiguration) (env : DispenserEnv)
    (compartmentNumber : Int) :
    Nat → DState → ExecCtx → Int → Int × DState × ExecCtx × List HwEvent
  | 0, s, ctx, totalPillsDetected =>
      if cfg.autoHomeAfterDispense = true ∧ totalPillsDetected > 0 then
        let h := performHomingWithRetryAndEscalation cfg (env.homingEnv ctx.homingRuns) s
        (totalPillsDetected, h.2.1, { ctx with homingRuns := ctx.homingRuns + 1 }, h.2.2)
      else (totalPillsDetected, s, ctx, [])
  | remaining + 1, s, ctx, totalPillsDetected =>
      let a := attemptToDispenseAndCountPills cfg env ctx
      let pillsDetected := a.1
      let newCounts := bumpDispenseCounts cfg s.dispensedCountForEachCompartment
        compartmentNumber pillsDetected
      let s1 :=
        if pillsDetected > 0 then
          { s with dispensedCountForEachCompartment := newCounts }
        else s
      let total1 := if pillsDetected > 0 then totalPillsDetected + pillsDetected
                    else totalPillsDetected
      let r := dispensePillsLoop cfg env compartmentNumber remaining s1 a.2.1 total1
      (r.1, r.2.1, r.2.2.1, a.2.2 ++ r.2.2.2)

/-- Embedding of `DispenserController::dispensePillsFromCompartment`. -/
def dispensePillsFromCompartment (cfg : SystemConfiguration) (env : DispenserEnv)
    (ctx : ExecCtx) (s : DState) (compartmentNumber numberOfPillsToDispense : Int) :
    Int × DState × ExecCtx × List HwEvent :=
  let mv := moveRotaryDispenserToCompartmentNumber cfg env ctx s compartmentNumber
  if mv.1 = false then (0, mv.2.1, mv.2.2.1, mv.2.2.2)
  else
    let r := dispensePillsLoop cfg env compartmentNumber
      numberOfPillsToDispense.toNat mv.2.1 mv.2.2.1 0
    (r.1, r.2.1, r.2.2.1, mv.2.2.2 ++ r.2.2.2)

/-- Embedding of `DispenserController::getDispenseCountForCompartment`. -/
def getDispenseCountForCompartment (cfg : SystemConfiguration) (s : DState)
    (compartmentNumber : Int) : Int :=
  if compartmentNumber ≥ 1 ∧ compartmentNumber ≤ cfg.numberOfCompartmentsInDispenser then
    s.dispensedCountForEachCompartment.getD (compartmentNumber - 1).toNat 0
  else 0

/-- Command kinds of the `BLECommand` struct in `BLEManager.h`. -/
inductive CommandType where
  | NONE
  | DISPENSE
  | STATUS
  | RESET
  | HOME
deriving DecidableEq

/-- Parsed BLE command; the default constructor gives
`(NONE, compartment 0, pillCount 1)`. -/
structure BLECommand where
  commandType : CommandType
  compartmentNumber : Int
  pillCount : Int
deriving DecidableEq

/-- Default-constructed `BLECommand()`. -/
def BLECommand.init : BLECommand :=
  { commandType := CommandType.NONE, compartmentNumber := 0, pillCount := 1 }

/-- Arduino `String::indexOf(ch, fromIndex)`: first index of `ch` at or
after `fromIndex`, or `-1` when absent. -/
def strIndexOfFrom (s : List Char) (ch : Char) (fromIndex : Nat) : Int :=
  match (s.drop fromIndex).findIdx? (fun c => c = ch) with
  | some i => (fromIndex + i : Nat)
  | none => -1

/-- Arduino `String::substring(from, to)`: the characters at indices
`[from, to)`. -/
def strSubstring (s : List Char) (a b : Nat) : List Char :=
  (s.drop a).take (b - a)

/-- Leading-whitespace skip of C `atol` (used by `String::toInt`). -/
def skipLeadingSpaces : List Char → List Char
  | [] => []
  | c :: cs =>
      if c = ' ' ∨ c = '\t' ∨ c = '\n' ∨ c = '\r' then skipLeadingSpaces cs
      else c :: cs

/-- Digit accumulation of C `atol`: consume decimal digits from the front,
stopping at the first non-digit. -/
def digitsValue (acc : Nat) : List Char → Nat
  | [] => acc
  | c :: cs =>
      if c.isDigit then digitsValue (acc * 10 + (c.toNat - 48)) cs
      else acc

/-- Arduino `String::toInt` (C `atol`): skip leading whitespace, accept one
optional sign, read decimal digits; a string with no leading digits parses
as `0`. -/
def stringToInt (s : List Char) : Int :=
  match skipLeadingSpaces s with
  | '-' :: rest => -(digitsValue 0 rest : Int)
  | '+' :: rest => (digitsValue 0 rest : Int)
  | rest => (digitsValue 0 rest : Int)

/-- The literal `DISPENSE:` command keyword. -/
def dispenseKeyword : List Char := "DISPENSE:".toList

/-- Embedding of `BLEManager::parseBLECommandAndExtractParameters` on the received
command string (unknown commands leave the default `NONE` command and only
send an error response). -/
def parseBLECommandAndExtractParameters (commandString : List Char) : BLECommand :=
  if dispenseKeyword.isPrefixOf commandString then
    let firstColonPosition := strIndexOfFrom commandString ':' 0
    let secondColonPosition := strIndexOfFrom commandString ':' (firstColonPosition + 1).toNat
    let compartmentString := strSubstring commandString (firstColonPosition + 1).toNat
      (if secondColonPosition > 0 then secondColonPosition.toNat else commandString.length)
    let compartment := stringToInt compartmentString
    if secondColonPosition > 0 then
      let countString := strSubstring commandString (secondColonPosition + 1).toNat
        commandString.length
      let parsedCount := stringToInt countString
      { commandType := CommandType.DISPENSE, compartmentNumber := compartment,
        pillCount := if parsedCount < 1 then 1 else parsedCount }
    else
      { commandType := CommandType.DISPENSE, compartmentNumber := compartment,
        pillCount := 1 }
  else if commandString = "STATUS".toList then
    { BLECommand.init with commandType := CommandType.STATUS }
  else if commandString = "RESET".toList then
    { BLECommand.init with commandType := CommandType.RESET }
  else if commandString = "HOME".toList then
    { BLECommand.init with commandType := CommandType.HOME }
  else
    BLECommand.init

/-- Predicate picking out homing seek attempts in a trace. -/
def isSeekEvent : HwEvent → Bool
  | HwEvent.seekRotate _ _ => true
  | _ => false

/-- State of a freshly constructed controller after a successful homing:
parked at the home reference with zeroed statistics. -/
def initialHomedState : DState :=
  { currentCompartmentNumber := 0, isSystemHomedAndReady := true,
    dispensedCountForEachCompartment := [0, 0, 0, 0, 0], currentPositionSteps := 0 }

/-- An un-homed controller state whose tracked position is nonzero (for
example after some manual movement before any homing). -/
def unhomedStartState : DState :=
  { currentCompartmentNumber := 0, isSystemHomedAndReady := false,
    dispensedCountForEachCompartment := [0, 0, 0, 0, 0], currentPositionSteps := 7 }

/-- A state reachable after a dispense whose auto-rehome failed: the homed
flag is cleared while the compartment label and position are stale. -/
def staleCompartmentState : DState :=
  { currentCompartmentNumber := 3, isSystemHomedAndReady := false,
    dispensedCountForEachCompartment := [0, 0, 0, 0, 0], currentPositionSteps := 81 }

/-- A controller state homed and parked at compartment 2. -/
def parkedAtTwoState : DState :=
  { currentCompartmentNumber := 2, isSystemHomedAndReady := true,
    dispensedCountForEachCompartment := [0, 0, 0, 0, 0], currentPositionSteps := 40 }

/-- Homing environment in which the home switch is inactive at every guard
read and every seek attempt finds the switch. -/
def alwaysFoundEnv : HomingEnv :=
  { switchAtShortCircuit := fun _ => false, switchAtAttemptStart := fun _ => false,
    seekFound := fun _ => true }

/-- Homing environment in which the home switch never activates. -/
def neverFoundEnv : HomingEnv :=
  { switchAtShortCircuit := fun _ => false, switchAtAttemptStart := fun _ => false,
    seekFound := fun _ => false }

/-- Dispenser environment whose homing runs all succeed immediately and
whose IR windows see nothing. -/
def homingSucceedsEnv : DispenserEnv :=
  { homingEnv := fun _ => alwaysFoundEnv, irSamples := fun _ => [] }

/-- Initial execution cursors. -/
def ctx0 : ExecCtx := { homingRuns := 0, dispenseAttempts := 0 }

/-- Dispenser environment for the two-pill scenario: every detection window
sees exactly one rising edge, and every homing run behaves as the given
`henv`. -/
def scenarioEnv (henv : HomingEnv) : DispenserEnv :=
  { homingEnv := fun _ => henv, irSamples := fun _ => [false, true, false] }

/-- Configuration whose second compartment angle spans two revolutions
(supported by the data model: angles are not restricted to one turn). -/
def multiRevolutionConfig : SystemConfiguration :=
  { defaultConfig with containerPositionsInDegrees := [0, 720, 0, 0, 0] }

/-- Configuration whose base pulse width lies below the configured minimum
and whose per-retry decrement is negative (a speed escalation downward). -/
def escalationConfig : SystemConfiguration :=
  { defaultConfig with
      stepperStepPulseWidthMicroseconds := 5,
      stepperMinStepPulseWidthMicroseconds := 10,
      homingDelayDecrementPerRetry := -10,
      homingRetryAttempts := 2 }

/-- The command line `DISPENSE:3:0` as a character list. -/
def dispenseThreeZeroCmd : List Char := "DISPENSE:3:0".toList

lemma countPillEdges_eq_spec (l : List Bool) : ∀ b : Bool,
    countPillEdges b l = risingEdgeCountSpec (b :: l) := by
  induction l with
  | nil => intro b; rfl
  | cons c cs ih =>
      intro b
      have hc := ih c
      simp only [countPillEdges, risingEdgeCountSpec, List.tail_cons, List.zip_cons_cons,
        List.countP_cons] at hc ⊢
      omega

/-- C4: within one detection window of `attemptToDispenseAndCountPills`, the
pill count equals the number of rising edges (previous sample inactive,
current sample active) of the sampled IR sequence; in particular the
sequence `[0,0,1,1,0,1,0]` counts 2 pills, not 3. -/
theorem attempt_pill_count_is_rising_edges :
    (∀ samples : List Bool, attemptPillCount samples = risingEdgeCountSpec samples) ∧
    attemptPillCount [false, false, true, true, false, true, false] = 2 := by
  constructor
  · intro samples
    cases samples with
    | nil => rfl
    | cons first rest => exact countPillEdges_eq_spec rest first
  · rfl

/-- C8 (amended): provided the configured base pulse width is at least the
configured minimum safe pulse width, the effective step delay of every
homing attempt stays at or above the minimum safe delay
(`2 * stepperMinStepPulseWidthMicroseconds`), whatever the decrement. -/
theorem homing_delay_never_below_min (cfg : SystemConfiguration) (attempt : Int)
    (hbase : cfg.stepperMinStepPulseWidthMicroseconds * 2 ≤
      cfg.stepperStepPulseWidthMicroseconds * 2)
    (h1 : 1 ≤ attempt) (h2 : attempt ≤ cfg.homingRetryAttempts) :
    cfg.stepperMinStepPulseWidthMicroseconds * 2 ≤ homingAttemptDelay cfg attempt := by
  simp only [homingAttemptDelay, constrain]
  set y := (attempt - 1) * cfg.homingDelayDecrementPerRetry with hy
  split_ifs <;> omega

/-- C8 witness: the default configuration at attempt 1. -/
theorem homing_delay_never_below_min_witness :
    defaultConfig.stepperMinStepPulseWidthMicroseconds * 2 ≤
      homingAttemptDelay defaultConfig 1 :=
  homing_delay_never_below_min defaultConfig 1 (by decide) (by decide) (by decide)

/-- C8 counterexample: with a base pulse width below the configured minimum
and a negative per-retry decrement, attempt 2 (within the configured retry
count) runs with an effective delay below the minimum safe delay. -/
theorem homing_delay_below_min_counterexample :
    1 ≤ (2 : Int) ∧ (2 : Int) ≤ escalationConfig.homingRetryAttempts ∧
    ¬ (escalationConfig.stepperMinStepPulseWidthMicroseconds * 2 ≤
        homingAttemptDelay escalationConfig 2) := by decide

/-- C10: `getDispenseCountForCompartment` returns 0 for every argument
outside `[1, numberOfCompartmentsInDispenser]`, and for every in-range
argument it reads the counter at an index provably inside the counter
array (no out-of-bounds access); the query is a pure function of the
state. -/
theorem dispense_count_query_bounds (cfg : SystemConfiguration) (s : DState) (c : Int)
    (hlen : cfg.numberOfCompartmentsInDispenser ≤
      (s.dispensedCountForEachCompartment.length : Int)) :
    ((c < 1 ∨ cfg.numberOfCompartmentsInDispenser < c) →
      getDispenseCountForCompartment cfg s c = 0) ∧
    (1 ≤ c → c ≤ cfg.numberOfCompartmentsInDispenser →
      ∃ hb : (c - 1).toNat < s.dispensedCountForEachCompartment.length,
        getDispenseCountForCompartment cfg s c =
          s.dispensedCountForEachCompartment.get ⟨(c - 1).toNat, hb⟩) := by
  constructor
  · intro hout
    rw [getDispenseCountForCompartment, if_neg]
    rintro ⟨hge, hle⟩
    omega
  · intro h1 h2
    have hb : (c - 1).toNat < s.dispensedCountForEachCompartment.length := by omega
    refine ⟨hb, ?_⟩
    rw [getDispenseCountForCompartment, if_pos ⟨h1, h2⟩]
    rw [List.getD_eq_getElem s.dispensedCountForEachCompartment 0 hb]
    simp

/-- C10 witness: in-range and out-of-range queries against the initial
homed state. -/
theorem dispense_count_query_bounds_witness :
    (((3 : Int) < 1 ∨ defaultConfig.numberOfCompartmentsInDispenser < 3) →
      getDispenseCountForCompartment defaultConfig initialHomedState 3 = 0) ∧
    (1 ≤ (3 : Int) → (3 : Int) ≤ defaultConfig.numberOfCompartmentsInDispenser →
      ∃ hb : ((3 : Int) - 1).toNat <
          initialHomedState.dispensedCountForEachCompartment.length,
        getDispenseCountForCompartment defaultConfig initialHomedState 3 =
          initialHomedState.dispensedCountForEachCompartment.get
            ⟨((3 : Int) - 1).toNat, hb⟩) :=
  dispense_count_query_bounds defaultConfig initialHomedState 3 (by decide)

lemma truncQ_of_nonneg {q : ℚ} (h : 0 ≤ q) : truncQ q = ⌊q⌋ := if_pos h

lemma truncQ_le_self {q : ℚ} (h : 0 ≤ q) : (truncQ q : ℚ) ≤ q := by
  rw [truncQ_of_nonneg h]
  exact Int.floor_le q

lemma truncQ_nonneg {q : ℚ} (h : 0 ≤ q) : 0 ≤ truncQ q := by
  rw [truncQ_of_nonneg h]
  exact Int.floor_nonneg.mpr h

lemma lt_truncQ_add_one {q : ℚ} (h : 0 ≤ q) : q < (truncQ q : ℚ) + 1 := by
  rw [truncQ_of_nonneg h]
  exact Int.lt_floor_add_one q

lemma calculateStepsForAngle_bounds (cfg : SystemConfiguration)
    (hR : 0 < totalStepsPerRevolution cfg) {a : ℚ} (h0 : 0 ≤ a) (h1 : a < 360) :
    0 ≤ (calculateStepsForAngle cfg a : ℚ) ∧
      (calculateStepsForAngle cfg a : ℚ) < totalStepsPerRevolution cfg := by
  have hx0 : 0 ≤ a / 360 * totalStepsPerRevolution cfg := by positivity
  have hfrac : a / 360 < 1 := (div_lt_one (by norm_num)).mpr h1
  have hx1 : a / 360 * totalStepsPerRevolution cfg < totalStepsPerRevolution cfg := by
    nlinarith
  refine ⟨by exact_mod_cast truncQ_nonneg hx0, ?_⟩
  calc (calculateStepsForAngle cfg a : ℚ) ≤ a / 360 * totalStepsPerRevolution cfg :=
        truncQ_le_self hx0
    _ < totalStepsPerRevolution cfg := hx1

lemma wrapAdjustedDelta_bound (revSteps : ℚ) (hR : 0 < revSteps) (p q : Int)
    (hp0 : 0 ≤ (p : ℚ)) (hp1 : (p : ℚ) < revSteps)
    (hq0 : 0 ≤ (q : ℚ)) (hq1 : (q : ℚ) < revSteps) :
    ((|wrapAdjustedDelta revSteps p q| : Int) : ℚ) ≤ revSteps / 2 := by
  have htr : truncQ revSteps = ⌊revSteps⌋ := truncQ_of_nonneg hR.le
  have hfle : (⌊revSteps⌋ : ℚ) ≤ revSteps := Int.floor_le revSteps
  have hflt : revSteps < (⌊revSteps⌋ : ℚ) + 1 := Int.lt_floor_add_one revSteps
  simp only [wrapAdjustedDelta, htr]
  set d : Int := q - p with hdd
  have hdlt : (d : ℚ) < revSteps := by
    rw [hdd]; push_cast; linarith
  have hdgt : -revSteps < (d : ℚ) := by
    rw [hdd]; push_cast; linarith
  by_cases habs : ((|d| : Int) : ℚ) > revSteps / 2
  · rw [if_pos habs]
    by_cases hpos : d > 0
    · rw [if_pos hpos]
      have hd0 : (0 : ℚ) < (d : ℚ) := by exact_mod_cast hpos
      have hdq : revSteps / 2 < (d : ℚ) := by
        rwa [Int.cast_abs, abs_of_pos hd0] at habs
      have hle1 : ((d - ⌊revSteps⌋ : Int) : ℚ) < 1 := by push_cast; linarith
      have hle0 : (d - ⌊revSteps⌋ : Int) ≤ 0 := by
        have : (d - ⌊revSteps⌋ : Int) < 1 := by exact_mod_cast hle1
        omega
      have hle0q : ((d - ⌊revSteps⌋ : Int) : ℚ) ≤ 0 := by exact_mod_cast hle0
      rw [Int.cast_abs, abs_of_nonpos hle0q]
      push_cast
      linarith
    · rw [if_neg hpos]
      have hd0 : (d : ℚ) ≤ 0 := by
        have : d ≤ 0 := not_lt.mp hpos
        exact_mod_cast this
      have hdq : (d : ℚ) < -(revSteps / 2) := by
        rw [Int.cast_abs, abs_of_nonpos hd0] at habs
        linarith
      have hgt1 : (-1 : ℚ) < ((d + ⌊revSteps⌋ : Int) : ℚ) := by push_cast; linarith
      have hge0 : 0 ≤ (d + ⌊revSteps⌋ : Int) := by
        have : (-1 : Int) < d + ⌊revSteps⌋ := by exact_mod_cast hgt1
        omega
      have hge0q : (0 : ℚ) ≤ ((d + ⌊revSteps⌋ : Int) : ℚ) := by exact_mod_cast hge0
      rw [Int.cast_abs, abs_of_nonneg hge0q]
      push_cast
      linarith
  · rw [if_neg habs]
    linarith [not_lt.mp habs]

/-- C1 (amended): for every configuration with a positive step count per
revolution and every pair of configured compartment angles lying within one
revolution (`[0°, 360°)`), the wraparound-adjusted travel delta of
`moveRotaryDispenserToCompartmentNumber` has absolute value at most
`totalStepsPerRevolution / 2`. -/
theorem travel_delta_within_half_revolution (cfg : SystemConfiguration)
    (hR : 0 < totalStepsPerRevolution cfg) (a b : ℚ)
    (ha : a ∈ cfg.containerPositionsInDegrees)
    (hb : b ∈ cfg.containerPositionsInDegrees)
    (ha0 : 0 ≤ a) (ha1 : a < 360) (hb0 : 0 ≤ b) (hb1 : b < 360) :
    ((|wrapAdjustedDelta (totalStepsPerRevolution cfg) (calculateStepsForAngle cfg a)
        (calculateStepsForAngle cfg b)| : Int) : ℚ) ≤
      totalStepsPerRevolution cfg / 2 := by
  obtain ⟨hpa0, hpa1⟩ := calculateStepsForAngle_bounds cfg hR ha0 ha1
  obtain ⟨hpb0, hpb1⟩ := calculateStepsForAngle_bounds cfg hR hb0 hb1
  exact wrapAdjustedDelta_bound _ hR _ _ hpa0 hpa1 hpb0 hpb1

/-- C1 witness: the default 5-compartment layout, moving between the
compartment-1 and compartment-3 angles. -/
theorem travel_delta_within_half_revolution_witness :
    ((|wrapAdjustedDelta (totalStepsPerRevolution defaultConfig)
        (calculateStepsForAngle defaultConfig 0)
        (calculateStepsForAngle defaultConfig 144)| : Int) : ℚ) ≤
      totalStepsPerRevolution defaultConfig / 2 :=
  travel_delta_within_half_revolution defaultConfig
    (by norm_num [totalStepsPerRevolution, defaultConfig]) 0 144
    (by simp [defaultConfig]) (by simp [defaultConfig])
    (by norm_num) (by norm_num) (by norm_num) (by norm_num)

/-- C1 counterexample: with a configured angle spanning two revolutions
(720°), the single wraparound correction leaves a travel delta of a full
revolution, strictly above `totalStepsPerRevolution / 2`. -/
theorem travel_delta_exceeds_half_revolution :
    ¬ (((|wrapAdjustedDelta (totalStepsPerRevolution multiRevolutionConfig)
          ((compartmentStepPositions multiRevolutionConfig).getD 0 0)
          ((compartmentStepPositions multiRevolutionConfig).getD 1 0)| : Int) : ℚ) ≤
        totalStepsPerRevolution multiRevolutionConfig / 2) := by
  have hR : totalStepsPerRevolution multiRevolutionConfig = 200 := by
    norm_num [totalStepsPerRevolution, multiRevolutionConfig, defaultConfig]
  have h0 : (compartmentStepPositions multiRevolutionConfig).getD 0 0 = 0 := by
    norm_num [compartmentStepPositions, multiRevolutionConfig, defaultConfig,
      calculateStepsForAngle, totalStepsPerRevolution, truncQ]
  have h1 : (compartmentStepPositions multiRevolutionConfig).getD 1 0 = 400 := by
    norm_num [compartmentStepPositions, multiRevolutionConfig, defaultConfig,
      calculateStepsForAngle, totalStepsPerRevolution, truncQ]
  rw [hR, h0, h1]
  have hw : wrapAdjustedDelta 200 0 400 = 200 := by
    norm_num [wrapAdjustedDelta, truncQ]
  rw [hw]
  norm_num

lemma performHomingAttempts_success_state (cfg : SystemConfiguration) (env : HomingEnv) :
    ∀ (fuel : Nat) (attempt : Int) (s : DState) (tr : List HwEvent),
      (performHomingAttempts cfg env fuel attempt s tr).1 = true →
      (performHomingAttempts cfg env fuel attempt s tr).2.1.currentPositionSteps = 0 ∧
      (performHomingAttempts cfg env fuel attempt s tr).2.1.currentCompartmentNumber = 0 ∧
      (performHomingAttempts cfg env fuel attempt s tr).2.1.isSystemHomedAndReady = true := by
  intro fuel
  induction fuel with
  | zero =>
      intro attempt s tr h
      simp [performHomingAttempts] at h
  | succ n ih =>
      intro attempt s tr h
      by_cases h1 : s.isSystemHomedAndReady = true ∧ env.switchAtShortCircuit attempt = true
      · simp only [performHomingAttempts, if_pos h1] at h ⊢
        exact ⟨rfl, rfl, h1.1⟩
      · by_cases h2 : env.seekFound attempt = true
        · simp only [performHomingAttempts, if_neg h1, if_pos h2] at h ⊢
          exact ⟨rfl, rfl, by trivial⟩
        · simp only [performHomingAttempts, if_neg h1, if_neg h2] at h ⊢
          exact ih _ _ _ h

/-- C3: whenever `performHomingWithRetryAndEscalation` reports success
(on any of its success paths, the already-homed short-circuit included),
the resulting state has `currentPositionSteps = 0`,
`currentCompartmentNumber = 0` and the homed flag set. -/
theorem homing_success_zeroes_position (cfg : SystemConfiguration) (env : HomingEnv)
    (s : DState)
    (h : (performHomingWithRetryAndEscalation cfg env s).1 = true) :
    (performHomingWithRetryAndEscalation cfg env s).2.1.currentPositionSteps = 0 ∧
    (performHomingWithRetryAndEscalation cfg env s).2.1.currentCompartmentNumber = 0 ∧
    (performHomingWithRetryAndEscalation cfg env s).2.1.isSystemHomedAndReady = true :=
  performHomingAttempts_success_state cfg env _ _ _ _ h

/-- C3 witness: a homing run from a nonzero un-homed position whose first
seek attempt finds the switch. -/
theorem homing_success_zeroes_position_witness :
    (performHomingWithRetryAndEscalation defaultConfig alwaysFoundEnv
        unhomedStartState).2.1.currentPositionSteps = 0 ∧
    (performHomingWithRetryAndEscalation defaultConfig alwaysFoundEnv
        unhomedStartState).2.1.currentCompartmentNumber = 0 ∧
    (performHomingWithRetryAndEscalation defaultConfig alwaysFoundEnv
        unhomedStartState).2.1.isSystemHomedAndReady = true :=
  homing_success_zeroes_position defaultConfig alwaysFoundEnv unhomedStartState (by decide)



lemma countP_seek_moveFwd (a b : Int) :
    (moveStepperForwardBySteps a b).2.countP isSeekEvent = 0 := by
  rw [moveStepperForwardBySteps]
  split_ifs <;> simp [isSeekEvent]

lemma countP_seek_moveBwd (a b : Int) :
    (moveStepperBackwardBySteps a b).2.countP isSeekEvent = 0 := by
  rw [moveStepperBackwardBySteps]
  split_ifs <;> simp [isSeekEvent]

lemma performHomingAttempts_never_found (cfg : SystemConfiguration) (env : HomingEnv)
    (hsc : ∀ i, env.switchAtShortCircuit i = false)
    (hfound : ∀ i, env.seekFound i = false) :
    ∀ (fuel : Nat) (attempt : Int) (s : DState) (tr : List HwEvent),
      (performHomingAttempts cfg env fuel attempt s tr).1 = false ∧
      (performHomingAttempts cfg env fuel attempt s tr).2.1.isSystemHomedAndReady = false ∧
      (performHomingAttempts cfg env fuel attempt s tr).2.2.countP isSeekEvent =
        tr.countP isSeekEvent + fuel := by
  intro fuel
  induction fuel with
  | zero =>
      intro attempt s tr
      refine ⟨rfl, rfl, ?_⟩
      show tr.countP isSeekEvent = tr.countP isSeekEvent + 0
      omega
  | succ n ih =>
      intro attempt s tr
      have h1 : ¬ (s.isSystemHomedAndReady = true ∧
          env.switchAtShortCircuit attempt = true) := by
        simp [hsc]
      have h2 : ¬ env.seekFound attempt = true := by simp [hfound]
      simp only [performHomingAttempts, if_neg h1, if_neg h2]
      split_ifs with hnudge hfwd hfwd
      all_goals
        refine ⟨(ih _ _ _).1, (ih _ _ _).2.1, ?_⟩
      all_goals
        rw [(ih _ _ _).2.2]
      all_goals
        simp [List.countP_append, countP_seek_moveFwd, countP_seek_moveBwd, isSeekEvent]
      all_goals omega

/-- C6: when the home sensor never activates, homing performs exactly
`homingRetryAttempts` seek attempts, then clears the homed flag and returns
`false` as an ordinary return value (the embedded function is total: no
exception path exists). -/
theorem homing_all_attempts_fail (cfg : SystemConfiguration) (env : HomingEnv) (s : DState)
    (hsc : ∀ i, env.switchAtShortCircuit i = false)
    (hstart : ∀ i, env.switchAtAttemptStart i = false)
    (hfound : ∀ i, env.seekFound i = false)
    (hn : 0 ≤ cfg.homingRetryAttempts) :
    (performHomingWithRetryAndEscalation cfg env s).1 = false ∧
    (performHomingWithRetryAndEscalation cfg env s).2.1.isSystemHomedAndReady = false ∧
    (((performHomingWithRetryAndEscalation cfg env s).2.2.countP isSeekEvent : Int) =
      cfg.homingRetryAttempts) := by
  obtain ⟨ha, hb, hc⟩ := performHomingAttempts_never_found cfg env hsc hfound
    cfg.homingRetryAttempts.toNat 1 s [HwEvent.servoRest]
  refine ⟨ha, hb, ?_⟩
  rw [performHomingWithRetryAndEscalation, hc]
  have h0 : ([HwEvent.servoRest] : List HwEvent).countP isSeekEvent = 0 := by
    simp [isSeekEvent]
  rw [h0]
  omega

/-- C6 witness: the default configuration (one retry attempt) against an
environment whose switch never activates. -/
theorem homing_all_attempts_fail_witness :
    (performHomingWithRetryAndEscalation defaultConfig neverFoundEnv unhomedStartState).1 =
      false ∧
    (performHomingWithRetryAndEscalation defaultConfig neverFoundEnv
        unhomedStartState).2.1.isSystemHomedAndReady = false ∧
    (((performHomingWithRetryAndEscalation defaultConfig neverFoundEnv
        unhomedStartState).2.2.countP isSeekEvent : Int) =
      defaultConfig.homingRetryAttempts) :=
  homing_all_attempts_fail defaultConfig neverFoundEnv unhomedStartState
    (fun _ => rfl) (fun _ => rfl) (fun _ => rfl) (by decide)

/-- C2 (amended): provided the system is already homed, an out-of-range
compartment argument makes `dispensePillsFromCompartment` fail immediately:
it returns 0, issues no hardware command at all (so no pickup attempt and
no actuator movement), and leaves the whole controller state - dispense
counters and position included - unchanged. -/
theorem invalid_compartment_rejected_when_homed (cfg : SystemConfiguration)
    (env : DispenserEnv) (ctx : ExecCtx) (s : DState) (c n : Int)
    (hhomed : s.isSystemHomedAndReady = true)
    (hout : c < 1 ∨ c > cfg.numberOfCompartmentsInDispenser) :
    dispensePillsFromCompartment cfg env ctx s c n = (0, s, ctx, []) := by
  simp only [dispensePillsFromCompartment, moveRotaryDispenserToCompartmentNumber,
    ensureSystemIsHomed, moveRotaryCore, if_pos hhomed, if_pos hout]
  simp

/-- C2 witness: compartment 6 against the homed default 5-compartment
system. -/
theorem invalid_compartment_rejected_when_homed_witness :
    dispensePillsFromCompartment defaultConfig homingSucceedsEnv ctx0
      initialHomedState 6 1 = (0, initialHomedState, ctx0, []) :=
  invalid_compartment_rejected_when_homed defaultConfig homingSucceedsEnv ctx0
    initialHomedState 6 1 rfl (by decide)

/-- C2 counterexample: from an un-homed state, the same out-of-range
request (compartment 0) still returns 0 but first runs a homing cycle:
hardware commands are issued and the tracked position is reset, refuting
the unconditional "no actuator movement, state unchanged" reading. -/
theorem invalid_compartment_unhomed_still_moves :
    (dispensePillsFromCompartment defaultConfig homingSucceedsEnv ctx0
        unhomedStartState 0 1).1 = 0 ∧
    (dispensePillsFromCompartment defaultConfig homingSucceedsEnv ctx0
        unhomedStartState 0 1).2.2.2 ≠ [] ∧
    (dispensePillsFromCompartment defaultConfig homingSucceedsEnv ctx0
        unhomedStartState 0 1).2.1.currentPositionSteps ≠
      unhomedStartState.currentPositionSteps := by decide

/-- C7 (amended): provided the system is already homed, a move request to
the compartment currently occupied (a valid compartment number) succeeds
with no hardware command issued and the whole state - `currentPositionSteps`
included - unchanged. -/
theorem move_to_current_compartment_identity (cfg : SystemConfiguration)
    (env : DispenserEnv) (ctx : ExecCtx) (s : DState) (t : Int)
    (hhomed : s.isSystemHomedAndReady = true)
    (h1 : 1 ≤ t) (h2 : t ≤ cfg.numberOfCompartmentsInDispenser)
    (heq : s.currentCompartmentNumber = t) :
    moveRotaryDispenserToCompartmentNumber cfg env ctx s t = (true, s, ctx, []) := by
  have hrange : ¬ (t < 1 ∨ t > cfg.numberOfCompartmentsInDispenser) := by
    push_neg
    exact ⟨h1, h2⟩
  simp only [moveRotaryDispenserToCompartmentNumber, ensureSystemIsHomed, moveRotaryCore,
    if_pos hhomed, if_neg hrange, if_pos heq]
  simp

/-- C7 witness: the homed system parked at compartment 2, asked to move to
compartment 2. -/
theorem move_to_current_compartment_identity_witness :
    moveRotaryDispenserToCompartmentNumber defaultConfig homingSucceedsEnv ctx0
      parkedAtTwoState 2 = (true, parkedAtTwoState, ctx0, []) :=
  move_to_current_compartment_identity defaultConfig homingSucceedsEnv ctx0
    parkedAtTwoState 2 rfl (by decide) (by decide) rfl

lemma moveRotaryCore_initialHomed_three :
    moveRotaryCore defaultConfig initialHomedState 3 =
      (true,
       { currentCompartmentNumber := 3, isSystemHomedAndReady := true,
         dispensedCountForEachCompartment := [0, 0, 0, 0, 0],
         currentPositionSteps := 80 },
       [HwEvent.stepperForward 80 30000]) := by
  have hpos : (compartmentStepPositions defaultConfig).getD (((3 : Int) - 1).toNat) 0 = 80 := by
    norm_num [compartmentStepPositions, defaultConfig, calculateStepsForAngle,
      totalStepsPerRevolution, truncQ]
    decide
  have hw : wrapAdjustedDelta (totalStepsPerRevolution defaultConfig)
      initialHomedState.currentPositionSteps 80 = 80 := by
    norm_num [wrapAdjustedDelta, totalStepsPerRevolution, defaultConfig, truncQ,
      initialHomedState]
  rw [moveRotaryCore, if_neg (by norm_num [defaultConfig]),
    if_neg (by norm_num [initialHomedState])]
  rw [hpos]
  simp only [hw]
  decide

/-- C7 counterexample: from a state whose compartment label already equals
the target (compartment 3) but whose homed flag is cleared, the move
request triggers homing plus a physical 80-step forward move, and the
tracked position changes - refuting the unconditional idempotence
reading. -/
theorem move_to_current_compartment_moves_when_unhomed :
    (moveRotaryDispenserToCompartmentNumber defaultConfig homingSucceedsEnv ctx0
        staleCompartmentState 3).1 = true ∧
    HwEvent.stepperForward 80 30000 ∈
      (moveRotaryDispenserToCompartmentNumber defaultConfig homingSucceedsEnv ctx0
        staleCompartmentState 3).2.2.2 ∧
    (moveRotaryDispenserToCompartmentNumber defaultConfig homingSucceedsEnv ctx0
        staleCompartmentState 3).2.1.currentPositionSteps ≠
      staleCompartmentState.currentPositionSteps := by
  have hens : ensureSystemIsHomed defaultConfig homingSucceedsEnv ctx0
      staleCompartmentState =
      (initialHomedState, { homingRuns := 1, dispenseAttempts := 0 },
       [HwEvent.servoRest, HwEvent.motorEnable, HwEvent.seekRotate 1 30000,
        HwEvent.motorStop, HwEvent.encoderReset]) := by decide
  have hmv : moveRotaryDispenserToCompartmentNumber defaultConfig homingSucceedsEnv ctx0
      staleCompartmentState 3 =
      (true,
       { currentCompartmentNumber := 3, isSystemHomedAndReady := true,
         dispensedCountForEachCompartment := [0, 0, 0, 0, 0],
         currentPositionSteps := 80 },
       { homingRuns := 1, dispenseAttempts := 0 },
       [HwEvent.servoRest, HwEvent.motorEnable, HwEvent.seekRotate 1 30000,
        HwEvent.motorStop, HwEvent.encoderReset, HwEvent.stepperForward 80 30000]) := by
    rw [moveRotaryDispenserToCompartmentNumber, hens]
    simp only [moveRotaryCore_initialHomed_three]
    rfl
  rw [hmv]
  refine ⟨rfl, by decide, by decide⟩

lemma performHomingAttempts_preserves_counts (cfg : SystemConfiguration)
    (env : HomingEnv) :
    ∀ (fuel : Nat) (attempt : Int) (s : DState) (tr : List HwEvent),
      (performHomingAttempts cfg env fuel attempt s
          tr).2.1.dispensedCountForEachCompartment =
        s.dispensedCountForEachCompartment := by
  intro fuel
  induction fuel with
  | zero => intro attempt s tr; rfl
  | succ n ih =>
      intro attempt s tr
      by_cases h1 : s.isSystemHomedAndReady = true ∧
          env.switchAtShortCircuit attempt = true
      · simp only [performHomingAttempts, if_pos h1]
        rfl
      · by_cases h2 : env.seekFound attempt = true
        · simp only [performHomingAttempts, if_neg h1, if_pos h2]
          split_ifs <;> rfl
        · simp only [performHomingAttempts, if_neg h1, if_neg h2]
          split_ifs <;> rw [ih] <;> rfl

lemma performHoming_preserves_counts (cfg : SystemConfiguration) (env : HomingEnv)
    (s : DState) :
    (performHomingWithRetryAndEscalation cfg env
        s).2.1.dispensedCountForEachCompartment =
      s.dispensedCountForEachCompartment :=
  performHomingAttempts_preserves_counts cfg env _ _ _ _

/-- C5: with the default layout `[0,72,144,216,288]`, a homed system asked
to dispense 2 pills from compartment 3, where each single-pill attempt sees
exactly one rising edge on its first try, returns 2, ends with the third
compartment counter (index 2) at 2, and - `autoHomeAfterDispense` being
true - runs exactly one homing cycle afterwards whose outcome (the
universally quantified `henv`) does not alter the returned count. -/
theorem dispense_two_pills_scenario (henv : HomingEnv) :
    (dispensePillsFromCompartment defaultConfig (scenarioEnv henv) ctx0
        initialHomedState 3 2).1 = 2 ∧
    (dispensePillsFromCompartment defaultConfig (scenarioEnv henv) ctx0
        initialHomedState 3 2).2.1.dispensedCountForEachCompartment.getD 2 0 = 2 ∧
    (dispensePillsFromCompartment defaultConfig (scenarioEnv henv) ctx0
        initialHomedState 3 2).2.2.1.homingRuns = 1 := by
  have hens : ensureSystemIsHomed defaultConfig (scenarioEnv henv) ctx0
      initialHomedState = (initialHomedState, ctx0, []) := rfl
  have hmv : moveRotaryDispenserToCompartmentNumber defaultConfig (scenarioEnv henv)
      ctx0 initialHomedState 3 =
      (true,
       { currentCompartmentNumber := 3, isSystemHomedAndReady := true,
         dispensedCountForEachCompartment := [0, 0, 0, 0, 0],
         currentPositionSteps := 80 },
       ctx0, [HwEvent.stepperForward 80 30000]) := by
    rw [moveRotaryDispenserToCompartmentNumber, hens]
    simp only [moveRotaryCore_initialHomed_three]
    rfl
  have key : dispensePillsFromCompartment defaultConfig (scenarioEnv henv) ctx0
      initialHomedState 3 2 =
      (2,
       (performHomingWithRetryAndEscalation defaultConfig henv
         { currentCompartmentNumber := 3, isSystemHomedAndReady := true,
           dispensedCountForEachCompartment := [0, 0, 2, 0, 0],
           currentPositionSteps := 80 }).2.1,
       { homingRuns := 1, dispenseAttempts := 2 },
       [HwEvent.stepperForward 80 30000] ++
         ([HwEvent.electromagnetOn, HwEvent.servoToMax, HwEvent.servoReturn,
           HwEvent.electromagnetOff] ++
          ([HwEvent.electromagnetOn, HwEvent.servoToMax, HwEvent.servoReturn,
            HwEvent.electromagnetOff] ++
           (performHomingWithRetryAndEscalation defaultConfig henv
             { currentCompartmentNumber := 3, isSystemHomedAndReady := true,
               dispensedCountForEachCompartment := [0, 0, 2, 0, 0],
               currentPositionSteps := 80 }).2.2))) := by
    rw [dispensePillsFromCompartment, hmv]
    rfl
  rw [key]
  refine ⟨rfl, ?_, rfl⟩
  rw [performHoming_preserves_counts]
  rfl

/-- C9: every command string parsed as a DISPENSE command carries a
pillCount of at least 1; when the count field is absent (no second colon,
the code's `secondColonPosition > 0` test failing), the default pillCount 1
is kept, and a present count field parsing below 1 (non-numeric parses
yield 0) is floored to 1. -/
theorem dispense_parse_pill_count_floored (cs : List Char)
    (h : (parseBLECommandAndExtractParameters cs).commandType = CommandType.DISPENSE) :
    1 ≤ (parseBLECommandAndExtractParameters cs).pillCount ∧
    (strIndexOfFrom cs ':' ((strIndexOfFrom cs ':' 0) + 1).toNat ≤ 0 →
      (parseBLECommandAndExtractParameters cs).pillCount = 1) := by
  by_cases hpre : dispenseKeyword.isPrefixOf cs = true
  · rw [parseBLECommandAndExtractParameters, if_pos hpre]
    by_cases hsec : strIndexOfFrom cs ':' ((strIndexOfFrom cs ':' 0) + 1).toNat > 0
    · rw [if_pos hsec]
      constructor
      · dsimp only
        split_ifs <;> omega
      · intro hle
        omega
    · rw [if_neg hsec]
      exact ⟨le_refl 1, fun _ => rfl⟩
  · rw [parseBLECommandAndExtractParameters, if_neg hpre] at h
    split_ifs at h <;> simp_all [BLECommand.init]

/-- C9 witness: the command `DISPENSE:3:0`, whose explicit count field
parses as 0 and is floored to 1. -/
theorem dispense_parse_pill_count_floored_witness :
    1 ≤ (parseBLECommandAndExtractParameters dispenseThreeZeroCmd).pillCount ∧
    (strIndexOfFrom dispenseThreeZeroCmd ':'
        ((strIndexOfFrom dispenseThreeZeroCmd ':' 0) + 1).toNat ≤ 0 →
      (parseBLECommandAndExtractParameters dispenseThreeZeroCmd).pillCount = 1) :=
  dispense_parse_pill_count_floored dispenseThreeZeroCmd (by decide)

/-- C5 witness: the scenario instantiated with a concrete homing
environment (one whose final auto-home run fails). -/
theorem dispense_two_pills_scenario_witness :
    (dispensePillsFromCompartment defaultConfig (scenarioEnv neverFoundEnv) ctx0
        initialHomedState 3 2).1 = 2 ∧
    (dispensePillsFromCompartment defaultConfig (scenarioEnv neverFoundEnv) ctx0
        initialHomedState 3 2).2.1.dispensedCountForEachCompartment.getD 2 0 = 2 ∧
    (dispensePillsFromCompartment defaultConfig (scenarioEnv neverFoundEnv) ctx0
        initialHomedState 3 2).2.2.1.homingRuns = 1 :=
  dispense_two_pills_scenario neverFoundEnv
